import Mathlib

/-!
Shallow embedding of `custom_components/sihas_canary/sensor.py` from the
chochobo/sihas-canary repository (Home Assistant integration for SiHAS
AQM-300 air-quality and PMM-300 power-meter devices).

Register snapshots are modelled as `List ℕ` (each entry a 16-bit register
word); measurement values are modelled as exact rationals `ℚ` (the spec's
"exact decimal semantics"). Python's `r[i]` raises `IndexError` when out of
range, so every value handler is embedded as `List ℕ → Option ℚ`, with
`none` standing for the raised exception.
-/

/-! ### Host-framework string constants (homeassistant.const values) -/

def PERCENTAGE : String := "%"

def TEMP_CELSIUS : String := "°C"

def LIGHT_LUX : String := "lx"

def CONCENTRATION_PARTS_PER_MILLION : String := "ppm"

def CONCENTRATION_PARTS_PER_BILLION : String := "ppb"

def CONCENTRATION_MICROGRAMS_PER_CUBIC_METER : String := "µg/m³"

def POWER_WATT : String := "W"

def ENERGY_WATT_HOUR : String := "Wh"

def ELECTRIC_POTENTIAL_VOLT : String := "V"

def ELECTRIC_CURRENT_AMPERE : String := "A"

def FREQUENCY_HERTZ : String := "Hz"

def STATE_CLASS_MEASUREMENT : String := "measurement"

def STATE_CLASS_TOTAL : String := "total"

def STATE_CLASS_TOTAL_INCREASING : String := "total_increasing"

/-- The device classes used by sensor.py (homeassistant `SensorDeviceClass`,
a string-valued enum in the host framework). -/
inductive SensorDeviceClass where
  | humidity
  | temperature
  | illuminance
  | co2
  | pm25
  | pm10
  | volatile_organic_compounds
  | power
  | energy
  | voltage
  | current
  | power_factor
  | frequency
deriving DecidableEq, Repr

/-- The string value of a homeassistant `SensorDeviceClass` member (what a
Python f-string interpolation of the enum member produces). -/
def SensorDeviceClass.className : SensorDeviceClass → String
  | .humidity => "humidity"
  | .temperature => "temperature"
  | .illuminance => "illuminance"
  | .co2 => "carbon_dioxide"
  | .pm25 => "pm25"
  | .pm10 => "pm10"
  | .volatile_organic_compounds => "volatile_organic_compounds"
  | .power => "power"
  | .energy => "energy"
  | .voltage => "voltage"
  | .current => "current"
  | .power_factor => "power_factor"
  | .frequency => "frequency"

/-! ### Python `round` (banker's rounding) on exact rationals -/

/-- Round-half-to-even on rationals, returning an integer: the exact-value
semantics of Python's built-in `round` for a value with no representation
error. -/
def roundHalfEven (q : ℚ) : ℤ :=
  let n := ⌊q⌋
  if q - n < 1/2 then n
  else if 1/2 < q - n then n + 1
  else if n % 2 = 0 then n else n + 1

/-- `pyRound q k` models Python `round(q, k)` on an exact rational. -/
def pyRound (q : ℚ) (k : ℕ) : ℚ :=
  (roundHalfEven (q * 10 ^ k) : ℚ) / 10 ^ k

/-- Modelled from the spec: `register_put_u32` is imported from `util.py`,
which is not under src/. Spec §3 rule 3 ("32-bit composite: two registers
form one unsigned 32-bit quantity, low word then high word:
`value = raw[low_idx] + raw[high_idx] * 65536`") and the register-map
comment in sensor.py (`r[41] * 65536 + r[40]`) fix its meaning. -/
def register_put_u32 (low high : ℕ) : ℕ :=
  low + high * 65536

/-! ### The AQM profile table (`AQM_GENERIC_SENSOR_DEFINE`) -/

/-- Shape of one row of `AQM_GENERIC_SENSOR_DEFINE` (an untyped dict in the
source; all rows share these five keys). -/
structure AqmConfig where
  uom : String
  value_handler : List ℕ → Option ℚ
  device_class : SensorDeviceClass
  state_class : String
  sub_id : String

/-- `"humidity"` row: `lambda r: round(r[1] / 10, 1)`. -/
def aqm_define_humidity : AqmConfig :=
  { uom := PERCENTAGE
    value_handler := fun r => (r.get? 1).map (fun v => pyRound ((v : ℚ) / 10) 1)
    device_class := .humidity
    state_class := STATE_CLASS_MEASUREMENT
    sub_id := "humidity" }

/-- `"temperature"` row: `lambda r: round(r[0] / 10, 1)`. -/
def aqm_define_temperature : AqmConfig :=
  { uom := TEMP_CELSIUS
    value_handler := fun r => (r.get? 0).map (fun v => pyRound ((v : ℚ) / 10) 1)
    device_class := .temperature
    state_class := STATE_CLASS_MEASUREMENT
    sub_id := "temperature" }

/-- `"illuminance"` row: `lambda r: r[6]`. -/
def aqm_define_illuminance : AqmConfig :=
  { uom := LIGHT_LUX
    value_handler := fun r => (r.get? 6).map (fun v => (v : ℚ))
    device_class := .illuminance
    state_class := STATE_CLASS_MEASUREMENT
    sub_id := "illuminance" }

/-- `"co2"` row: `lambda r: r[2]`. -/
def aqm_define_co2 : AqmConfig :=
  { uom := CONCENTRATION_PARTS_PER_MILLION
    value_handler := fun r => (r.get? 2).map (fun v => (v : ℚ))
    device_class := .co2
    state_class := STATE_CLASS_MEASUREMENT
    sub_id := "co2" }

/-- `"pm25"` row: `lambda r: r[3]`. -/
def aqm_define_pm25 : AqmConfig :=
  { uom := CONCENTRATION_MICROGRAMS_PER_CUBIC_METER
    value_handler := fun r => (r.get? 3).map (fun v => (v : ℚ))
    device_class := .pm25
    state_class := STATE_CLASS_MEASUREMENT
    sub_id := "pm25" }

/-- `"pm10"` row: `lambda r: r[4]`. -/
def aqm_define_pm10 : AqmConfig :=
  { uom := CONCENTRATION_MICROGRAMS_PER_CUBIC_METER
    value_handler := fun r => (r.get? 4).map (fun v => (v : ℚ))
    device_class := .pm10
    state_class := STATE_CLASS_MEASUREMENT
    sub_id := "pm10" }

/-- `"tvoc"` row: `lambda r: r[5]`. -/
def aqm_define_tvoc : AqmConfig :=
  { uom := CONCENTRATION_PARTS_PER_BILLION
    value_handler := fun r => (r.get? 5).map (fun v => (v : ℚ))
    device_class := .volatile_organic_compounds
    state_class := STATE_CLASS_MEASUREMENT
    sub_id := "tvoc" }

/-- `AQM_GENERIC_SENSOR_DEFINE`, a dict in the source, as an association
list in source order. -/
def AQM_GENERIC_SENSOR_DEFINE : List (String × AqmConfig) :=
  [("humidity", aqm_define_humidity),
   ("temperature", aqm_define_temperature),
   ("illuminance", aqm_define_illuminance),
   ("co2", aqm_define_co2),
   ("pm25", aqm_define_pm25),
   ("pm10", aqm_define_pm10),
   ("tvoc", aqm_define_tvoc)]

/-! ### The PMM profile table (`PMM_GENERIC_SENSOR_DEFINE`) -/

def PMM_KEY_POWER : String := "power"

def PMM_KEY_THIS_MONTH_ENERGY : String := "this_month_energy"

def PMM_KEY_THIS_DAY_ENERGY : String := "this_day_energy"

def PMM_KEY_TOTAL : String := "total_energy"

def PMM_KEY_VOLTAGE : String := "voltage"

def PMM_KEY_CURRENT : String := "current"

def PMM_KEY_POWER_FACTOR : String := "power_factor"

def PMM_KEY_FREQUENCY : String := "frequency"

def PMM_KEY_THIS_HOUR_ENERGY : String := "this_hour_energy"

def PMM_KEY_BEFORE_HOUR_ENERGY : String := "before_hour_energy"

def PMM_KEY_YESTERDAY_ENERGY : String := "yesterday_energy"

def PMM_KEY_LAST_MONTH_ENERGY : String := "last_month_energy"

def PMM_KEY_TWO_MONTHS_AGO_ENERGY : String := "two_months_ago_energy"

def PMM_KEY_THIS_MONTH_FORECAST_ENERGY : String := "this_month_forecast_energy"

/-- The `PmmConfig` dataclass of sensor.py. -/
structure PmmConfig where
  nuom : String
  value_handler : List ℕ → Option ℚ
  device_class : SensorDeviceClass
  state_class : String
  sub_id : String

/-- `power` entry: `lambda r: r[2]`. -/
def pmm_define_power : PmmConfig :=
  { nuom := POWER_WATT
    value_handler := fun r => (r.get? 2).map (fun v => (v : ℚ))
    device_class := .power
    state_class := STATE_CLASS_MEASUREMENT
    sub_id := PMM_KEY_POWER }

/-- `this_month_energy` entry: `lambda r: r[10] * 10`. -/
def pmm_define_this_month_energy : PmmConfig :=
  { nuom := ENERGY_WATT_HOUR
    value_handler := fun r => (r.get? 10).map (fun v => (v : ℚ) * 10)
    device_class := .energy
    state_class := STATE_CLASS_TOTAL
    sub_id := PMM_KEY_THIS_MONTH_ENERGY }

/-- `this_day_energy` entry: `lambda r: r[8] * 10`. -/
def pmm_define_this_day_energy : PmmConfig :=
  { nuom := ENERGY_WATT_HOUR
    value_handler := fun r => (r.get? 8).map (fun v => (v : ℚ) * 10)
    device_class := .energy
    state_class := STATE_CLASS_TOTAL
    sub_id := PMM_KEY_THIS_DAY_ENERGY }

/-- `total_energy` entry: `lambda r: register_put_u32(r[40], r[41])`.
Python evaluates `r[40]` first, then `r[41]`. -/
def pmm_define_total : PmmConfig :=
  { nuom := ENERGY_WATT_HOUR
    value_handler := fun r =>
      (r.get? 40).bind (fun lo => (r.get? 41).map
        (fun hi => ((register_put_u32 lo hi : ℕ) : ℚ)))
    device_class := .energy
    state_class := STATE_CLASS_TOTAL_INCREASING
    sub_id := PMM_KEY_TOTAL }

/-- `voltage` entry: `lambda r: r[0] / 10` (no rounding in the source). -/
def pmm_define_voltage : PmmConfig :=
  { nuom := ELECTRIC_POTENTIAL_VOLT
    value_handler := fun r => (r.get? 0).map (fun v => (v : ℚ) / 10)
    device_class := .voltage
    state_class := STATE_CLASS_MEASUREMENT
    sub_id := PMM_KEY_VOLTAGE }

/-- `current` entry: `lambda r: r[1] / 100` (no rounding in the source). -/
def pmm_define_current : PmmConfig :=
  { nuom := ELECTRIC_CURRENT_AMPERE
    value_handler := fun r => (r.get? 1).map (fun v => (v : ℚ) / 100)
    device_class := .current
    state_class := STATE_CLASS_MEASUREMENT
    sub_id := PMM_KEY_CURRENT }

/-- `power_factor` entry: `lambda r: r[3] / 10` (no rounding in the source). -/
def pmm_define_power_factor : PmmConfig :=
  { nuom := PERCENTAGE
    value_handler := fun r => (r.get? 3).map (fun v => (v : ℚ) / 10)
    device_class := .power_factor
    state_class := STATE_CLASS_MEASUREMENT
    sub_id := PMM_KEY_POWER_FACTOR }

/-- `frequency` entry: `lambda r: r[4] / 10` (no rounding in the source). -/
def pmm_define_frequency : PmmConfig :=
  { nuom := FREQUENCY_HERTZ
    value_handler := fun r => (r.get? 4).map (fun v => (v : ℚ) / 10)
    device_class := .frequency
    state_class := STATE_CLASS_MEASUREMENT
    sub_id := PMM_KEY_FREQUENCY }

/-- `this_hour_energy` entry: `lambda r: r[6] * 10 + r[16]`.
Python evaluates `r[6]` first, then `r[16]`. -/
def pmm_define_this_hour_energy : PmmConfig :=
  { nuom := ENERGY_WATT_HOUR
    value_handler := fun r =>
      (r.get? 6).bind (fun a => (r.get? 16).map (fun b => (a : ℚ) * 10 + b))
    device_class := .energy
    state_class := STATE_CLASS_TOTAL
    sub_id := PMM_KEY_THIS_HOUR_ENERGY }

/-- `before_hour_energy` entry: `lambda r: r[7] * 10`. -/
def pmm_define_before_hour_energy : PmmConfig :=
  { nuom := ENERGY_WATT_HOUR
    value_handler := fun r => (r.get? 7).map (fun v => (v : ℚ) * 10)
    device_class := .energy
    state_class := STATE_CLASS_TOTAL
    sub_id := PMM_KEY_BEFORE_HOUR_ENERGY }

/-- `yesterday_energy` entry: `lambda r: r[9] * 10`. -/
def pmm_define_yesterday_energy : PmmConfig :=
  { nuom := ENERGY_WATT_HOUR
    value_handler := fun r => (r.get? 9).map (fun v => (v : ℚ) * 10)
    device_class := .energy
    state_class := STATE_CLASS_TOTAL
    sub_id := PMM_KEY_YESTERDAY_ENERGY }

/-- `last_month_energy` entry: `lambda r: r[11] * 10`. -/
def pmm_define_last_month_energy : PmmConfig :=
  { nuom := ENERGY_WATT_HOUR
    value_handler := fun r => (r.get? 11).map (fun v => (v : ℚ) * 10)
    device_class := .energy
    state_class := STATE_CLASS_TOTAL
    sub_id := PMM_KEY_LAST_MONTH_ENERGY }

/-- `two_months_ago_energy` entry: `lambda r: r[12] * 10`. -/
def pmm_define_two_months_ago_energy : PmmConfig :=
  { nuom := ENERGY_WATT_HOUR
    value_handler := fun r => (r.get? 12).map (fun v => (v : ℚ) * 10)
    device_class := .energy
    state_class := STATE_CLASS_TOTAL
    sub_id := PMM_KEY_TWO_MONTHS_AGO_ENERGY }

/-- `this_month_forecast_energy` entry: `lambda r: r[13] * 10`. -/
def pmm_define_this_month_forecast_energy : PmmConfig :=
  { nuom := ENERGY_WATT_HOUR
    value_handler := fun r => (r.get? 13).map (fun v => (v : ℚ) * 10)
    device_class := .energy
    state_class := STATE_CLASS_TOTAL
    sub_id := PMM_KEY_THIS_MONTH_FORECAST_ENERGY }

/-- `PMM_GENERIC_SENSOR_DEFINE`, a dict in the source, as an association
list in source order. -/
def PMM_GENERIC_SENSOR_DEFINE : List (String × PmmConfig) :=
  [(PMM_KEY_POWER, pmm_define_power),
   (PMM_KEY_THIS_MONTH_ENERGY, pmm_define_this_month_energy),
   (PMM_KEY_THIS_DAY_ENERGY, pmm_define_this_day_energy),
   (PMM_KEY_TOTAL, pmm_define_total),
   (PMM_KEY_VOLTAGE, pmm_define_voltage),
   (PMM_KEY_CURRENT, pmm_define_current),
   (PMM_KEY_POWER_FACTOR, pmm_define_power_factor),
   (PMM_KEY_FREQUENCY, pmm_define_frequency),
   (PMM_KEY_THIS_HOUR_ENERGY, pmm_define_this_hour_energy),
   (PMM_KEY_BEFORE_HOUR_ENERGY, pmm_define_before_hour_energy),
   (PMM_KEY_YESTERDAY_ENERGY, pmm_define_yesterday_energy),
   (PMM_KEY_LAST_MONTH_ENERGY, pmm_define_last_month_energy),
   (PMM_KEY_TWO_MONTHS_AGO_ENERGY, pmm_define_two_months_ago_energy),
   (PMM_KEY_THIS_MONTH_FORECAST_ENERGY, pmm_define_this_month_forecast_energy)]

/-! ### Proxies, virtual sensor entities, and platform setup -/

/-- State of a `SihasProxy` (the per-device register window of sihas_base.py)
as seen by sensor.py: connection parameters plus the latest snapshot and
availability flag. -/
structure SihasProxy where
  ip : String
  mac : String
  device_type : String
  config : ℕ
  registers : List ℕ
  attr_available : Bool
  name : Option String

/-- Modelled from the spec: `SihasProxy.__init__` (sihas_base.py, not under
src/) stores the connection parameters; before the first poll the window has
no snapshot and reports unavailable (spec §6: failure and absence are
reflected via availability, never via a raised error). -/
def SihasProxy.make (ip mac device_type : String) (config : ℕ) : SihasProxy :=
  { ip := ip
    mac := mac
    device_type := device_type
    config := config
    registers := []
    attr_available := false
    name := none }

/-- The entity-level attributes a `PmmVirtualSensor` / `AqmVirtualSensor`
holds after `__init__` (the `SensorEntity` attribute fields assigned in
sensor.py). `sub_name` models `PmmVirtualSensor._name`, which
`AqmVirtualSensor` does not set. -/
structure VirtualSensor where
  attr_unique_id : String
  attr_native_unit_of_measurement : String
  attr_name : String
  attr_device_class : SensorDeviceClass
  attr_state_class : String
  sub_name : Option String
  value_handler : List ℕ → Option ℚ
  attr_native_value : Option ℚ
  attr_available : Bool

/-- `PmmVirtualSensor.__init__`: unique id is
`f"{proxy.device_type}-{proxy.mac}-{conf.sub_id}"`. -/
def PmmVirtualSensor.make (proxy : SihasProxy) (conf : PmmConfig) : VirtualSensor :=
  { attr_unique_id := proxy.device_type ++ "-" ++ proxy.mac ++ "-" ++ conf.sub_id
    attr_native_unit_of_measurement := conf.nuom
    attr_name :=
      match proxy.name with
      | some n => n ++ " #" ++ conf.sub_id
      | none => proxy.device_type ++ "-" ++ proxy.mac ++ "-" ++ conf.sub_id
    attr_device_class := conf.device_class
    attr_state_class := conf.state_class
    sub_name := some conf.sub_id
    value_handler := conf.value_handler
    attr_native_value := none
    attr_available := proxy.attr_available }

/-- `AqmVirtualSensor.__init__`: unique id is
`f"{proxy.device_type}-{proxy.mac}-{conf['device_class']}"` — built from the
device class, not from `sub_id` as the PMM id is. -/
def AqmVirtualSensor.make (proxy : SihasProxy) (conf : AqmConfig) : VirtualSensor :=
  { attr_unique_id :=
      proxy.device_type ++ "-" ++ proxy.mac ++ "-" ++ conf.device_class.className
    attr_native_unit_of_measurement := conf.uom
    attr_name :=
      match proxy.name with
      | some n => n ++ " #" ++ conf.sub_id
      | none => proxy.device_type ++ "-" ++ proxy.mac ++ "-" ++ conf.device_class.className
    attr_device_class := conf.device_class
    attr_state_class := conf.state_class
    sub_name := none
    value_handler := conf.value_handler
    attr_native_value := none
    attr_available := proxy.attr_available }

/-- `Pmm300.get_sub_entities`: fourteen `PmmVirtualSensor`s in source order. -/
def Pmm300.get_sub_entities (proxy : SihasProxy) : List VirtualSensor :=
  [PmmVirtualSensor.make proxy pmm_define_power,
   PmmVirtualSensor.make proxy pmm_define_this_month_energy,
   PmmVirtualSensor.make proxy pmm_define_this_day_energy,
   PmmVirtualSensor.make proxy pmm_define_total,
   PmmVirtualSensor.make proxy pmm_define_voltage,
   PmmVirtualSensor.make proxy pmm_define_current,
   PmmVirtualSensor.make proxy pmm_define_power_factor,
   PmmVirtualSensor.make proxy pmm_define_frequency,
   PmmVirtualSensor.make proxy pmm_define_this_hour_energy,
   PmmVirtualSensor.make proxy pmm_define_before_hour_energy,
   PmmVirtualSensor.make proxy pmm_define_yesterday_energy,
   PmmVirtualSensor.make proxy pmm_define_last_month_energy,
   PmmVirtualSensor.make proxy pmm_define_two_months_ago_energy,
   PmmVirtualSensor.make proxy pmm_define_this_month_forecast_energy]

/-- `Aqm300.get_sub_entities`: seven `AqmVirtualSensor`s in source order. -/
def Aqm300.get_sub_entities (proxy : SihasProxy) : List VirtualSensor :=
  [AqmVirtualSensor.make proxy aqm_define_co2,
   AqmVirtualSensor.make proxy aqm_define_pm25,
   AqmVirtualSensor.make proxy aqm_define_pm10,
   AqmVirtualSensor.make proxy aqm_define_tvoc,
   AqmVirtualSensor.make proxy aqm_define_humidity,
   AqmVirtualSensor.make proxy aqm_define_illuminance,
   AqmVirtualSensor.make proxy aqm_define_temperature]

/-- The config-entry data consumed by `async_setup_entry`
(`entry.data[CONF_TYPE]`, `[CONF_IP]`, `[CONF_MAC]`, `[CONF_CFG]`). -/
structure EntryData where
  type : String
  ip : String
  mac : String
  cfg : ℕ

/-- `async_setup_entry`, returning the list of entities passed to
`async_add_entities`. The source dispatches on `entry.data[CONF_TYPE]` with
an `if`/`elif` and no `else` branch: any other model identifier adds no
entities and raises no error. -/
def async_setup_entry (entry : EntryData) : List VirtualSensor :=
  if entry.type = "PMM" then
    Pmm300.get_sub_entities (SihasProxy.make entry.ip entry.mac entry.type entry.cfg)
  else if entry.type = "AQM" then
    Aqm300.get_sub_entities (SihasProxy.make entry.ip entry.mac entry.type entry.cfg)
  else []

/-! ### The refresh cycle (`PmmVirtualSensor.update` / `AqmVirtualSensor.update`)

Both `update` methods have the identical body

    self._proxy.update()
    self._attr_native_value = self.value_handler(self._proxy.registers)
    self._attr_available = self._proxy._attr_available

The mutable world is made explicit: a `SystemState` maps reader ids to the
reader-owned mutable fields and device ids to their register window. The
network side of `self._proxy.update()` (sihas_base.py, not under src/) is an
arbitrary `poll` function on the window state, per the spec's collaborator
contract. `Except` models the uncaught Python exception: `.error` carries
the state at the moment `value_handler` raises, after the poll mutated the
window but before either reader field was assigned. -/

/-- A register window: the `registers` snapshot and `_attr_available` flag
of one `SihasProxy`. -/
structure WindowState where
  registers : List ℕ
  available : Bool
deriving Repr

/-- The mutable per-reader fields assigned by `update`:
`_attr_native_value` and `_attr_available`. -/
structure ReaderState where
  native_value : Option ℚ
  available : Bool
deriving Repr

/-- The mutable world: every reader's fields and every device's window. -/
structure SystemState (ι δ : Type) where
  readers : ι → ReaderState
  windows : δ → WindowState

/-- One call of `update` on reader `i`: poll the reader's device window,
evaluate the reader's `value_handler` on the fresh snapshot, and on success
store the decoded value and copy the window's availability flag. `device`
fixes which window each reader polls; `rule` is each reader's
`value_handler`; `poll` is the out-of-scope transport refresh. -/
def updateReader {ι δ : Type} [DecidableEq ι] [DecidableEq δ]
    (device : ι → δ) (rule : ι → List ℕ → Option ℚ)
    (poll : δ → WindowState → WindowState)
    (s : SystemState ι δ) (i : ι) :
    Except (SystemState ι δ) (SystemState ι δ) :=
  let w := poll (device i) (s.windows (device i))
  let s1 : SystemState ι δ :=
    { readers := s.readers
      windows := fun d => if d = device i then w else s.windows d }
  match rule i w.registers with
  | none => .error s1
  | some v =>
      .ok { readers := fun j =>
              if j = i then { native_value := some v, available := w.available }
              else s1.readers j
            windows := s1.windows }

/-- The world after an `update` call, whether it returned normally or
raised. -/
def afterUpdate {ι δ : Type} :
    Except (SystemState ι δ) (SystemState ι δ) → SystemState ι δ
  | .ok s => s
  | .error s => s

/-- Whether an `update` call returned normally (no exception escaped). -/
def updateReturnedNormally {ι δ : Type}
    (e : Except (SystemState ι δ) (SystemState ι δ)) : Bool :=
  match e with
  | .ok _ => true
  | .error _ => false

/-! ### Concrete instantiations used by counterexamples and witnesses -/

/-- A single reader bound to a single device. -/
def soloDevice : Unit → Unit := fun _ => ()

/-- The single reader carries the AQM co2 `value_handler` (`lambda r: r[2]`). -/
def co2Rule : Unit → List ℕ → Option ℚ := fun _ => aqm_define_co2.value_handler

/-- A poll whose round trip fails: the window keeps valid-looking register
contents but reports unavailable. -/
def staleUnavailablePoll : Unit → WindowState → WindowState :=
  fun _ _ => { registers := [400, 0, 700], available := false }

/-- A poll that delivers a one-word snapshot, too short for index 2. -/
def shortSnapshotPoll : Unit → WindowState → WindowState :=
  fun _ _ => { registers := [7], available := true }

/-- Initial world for the single-reader scenarios. -/
def soloWorld : SystemState Unit Unit :=
  { readers := fun _ => { native_value := none, available := true }
    windows := fun _ => { registers := [], available := true } }

/-- The world after refreshing the single reader against the unavailable
window. -/
def staleWorld : SystemState Unit Unit :=
  afterUpdate (updateReader soloDevice co2Rule staleUnavailablePoll soloWorld ())

/-- Two readers (`false`, `true`) on two distinct devices. -/
def pairDevice : Bool → Bool := fun b => b

/-- Both readers in the pair scenario carry the PMM power handler
(`lambda r: r[2]`). -/
def pairRule : Bool → List ℕ → Option ℚ := fun _ => pmm_define_power.value_handler

/-- A poll that leaves the window unchanged. -/
def pairPoll : Bool → WindowState → WindowState := fun _ w => w

/-- Initial world for the two-reader scenario. -/
def pairWorld : SystemState Bool Bool :=
  { readers := fun _ => { native_value := none, available := false }
    windows := fun _ => { registers := [9, 9, 42], available := true } }

/-- A 42-word snapshot whose words 40 and 41 are 1000 and 2. -/
def c3Snapshot : List ℕ := List.replicate 40 0 ++ [1000, 2]

/-- A 17-word snapshot with word 6 = 7 and word 16 = 3. -/
def c5Snapshot : List ℕ := List.replicate 6 0 ++ [7] ++ List.replicate 9 0 ++ [3]

/-! ### Helper lemmas -/

theorem roundHalfEven_intCast (m : ℤ) : roundHalfEven (m : ℚ) = m := by
  simp [roundHalfEven]

theorem pyRound_natDiv (n k : ℕ) :
    pyRound ((n : ℚ) / 10 ^ k) k = (n : ℚ) / 10 ^ k := by
  unfold pyRound
  rw [div_mul_cancel₀ _ (by positivity : ((10 : ℚ) ^ k) ≠ 0)]
  rw [show ((n : ℚ)) = (((n : ℤ) : ℚ)) by push_cast; ring, roundHalfEven_intCast]

theorem string_append_cancel (p : String) {a b : String} (h : p ++ a = p ++ b) :
    a = b := by
  have h2 := congrArg String.data h
  simp [String.data_append] at h2
  exact String.ext h2

/-! ### Claim theorems -/

/-- C3: for every snapshot whose words 40 and 41 exist and are 16-bit values,
the PMM total-energy rule returns `raw[40] + raw[41] * 65536` (word 40 low,
word 41 high) and the result never exceeds `4294967295`. -/
theorem pmm_total_energy_decode (r : List ℕ) (lo hi : ℕ)
    (h40 : r.get? 40 = some lo) (h41 : r.get? 41 = some hi)
    (hlo : lo ≤ 65535) (hhi : hi ≤ 65535) :
    pmm_define_total.value_handler r = some ((lo + hi * 65536 : ℕ) : ℚ) ∧
    lo + hi * 65536 ≤ 4294967295 := by
  rw [List.get?_eq_getElem?] at h40 h41
  constructor
  · simp [pmm_define_total, h40, h41, register_put_u32]
  · omega

/-- C3 witness: on the concrete 42-word snapshot with `raw[40] = 1000` and
`raw[41] = 2` the total-energy rule yields `132072`. -/
theorem pmm_total_energy_decode_witness :
    pmm_define_total.value_handler c3Snapshot = some ((1000 + 2 * 65536 : ℕ) : ℚ) ∧
    (1000 + 2 * 65536 : ℕ) = 132072 :=
  ⟨(pmm_total_energy_decode c3Snapshot 1000 2 (by decide) (by decide)
      (by decide) (by decide)).1,
   by norm_num⟩

/-- C4: every single-register scale rule (AQM temperature and humidity
divide-by-10; PMM voltage divide-by-10, current divide-by-100, power-factor
divide-by-10, frequency divide-by-10) returns exactly `raw[i] / 10^k`, and
rounding such a value to `k` decimal places is the identity, so each rule
returns `raw[i] / 10^k` rounded to `k` decimal places. -/
theorem single_register_scale_rules (r : List ℕ) (v : ℕ) :
    (r.get? 1 = some v →
      aqm_define_humidity.value_handler r = some ((v : ℚ) / 10)) ∧
    (r.get? 0 = some v →
      aqm_define_temperature.value_handler r = some ((v : ℚ) / 10)) ∧
    (r.get? 0 = some v →
      pmm_define_voltage.value_handler r = some ((v : ℚ) / 10)) ∧
    (r.get? 1 = some v →
      pmm_define_current.value_handler r = some ((v : ℚ) / 100)) ∧
    (r.get? 3 = some v →
      pmm_define_power_factor.value_handler r = some ((v : ℚ) / 10)) ∧
    (r.get? 4 = some v →
      pmm_define_frequency.value_handler r = some ((v : ℚ) / 10)) ∧
    pyRound ((v : ℚ) / 10) 1 = (v : ℚ) / 10 ∧
    pyRound ((v : ℚ) / 100) 2 = (v : ℚ) / 100 := by
  have k1 : pyRound ((v : ℚ) / 10) 1 = (v : ℚ) / 10 := by
    have h := pyRound_natDiv v 1
    rw [pow_one] at h
    exact h
  have k2 : pyRound ((v : ℚ) / 100) 2 = (v : ℚ) / 100 := by
    have h := pyRound_natDiv v 2
    norm_num at h
    exact h
  refine ⟨?_, ?_, ?_, ?_, ?_, ?_, k1, k2⟩
  · intro h; rw [List.get?_eq_getElem?] at h; simp [aqm_define_humidity, h, k1]
  · intro h; rw [List.get?_eq_getElem?] at h; simp [aqm_define_temperature, h, k1]
  · intro h; rw [List.get?_eq_getElem?] at h; simp [pmm_define_voltage, h]
  · intro h; rw [List.get?_eq_getElem?] at h; simp [pmm_define_current, h]
  · intro h; rw [List.get?_eq_getElem?] at h; simp [pmm_define_power_factor, h]
  · intro h; rw [List.get?_eq_getElem?] at h; simp [pmm_define_frequency, h]

/-- C4 witness: AQM humidity raw value 455 decodes to 45.5. -/
theorem single_register_scale_rules_witness :
    aqm_define_humidity.value_handler [0, 455] = some ((455 : ℚ) / 10) ∧
    (455 : ℚ) / 10 = 45.5 :=
  ⟨(single_register_scale_rules [0, 455] 455).1 (by decide), by norm_num⟩

/-- C5: for every snapshot whose words 6 and 16 exist, the PMM
this-hour-energy rule returns exactly `raw[6] * 10 + raw[16]`. -/
theorem pmm_this_hour_energy_decode (r : List ℕ) (a b : ℕ)
    (h6 : r.get? 6 = some a) (h16 : r.get? 16 = some b) :
    pmm_define_this_hour_energy.value_handler r = some ((a : ℚ) * 10 + (b : ℚ)) := by
  rw [List.get?_eq_getElem?] at h6 h16
  simp [pmm_define_this_hour_energy, h6, h16]

/-- C5 witness: on the concrete 17-word snapshot with `raw[6] = 7` and
`raw[16] = 3` the rule yields `73`. -/
theorem pmm_this_hour_energy_decode_witness :
    pmm_define_this_hour_energy.value_handler c5Snapshot =
      some ((7 : ℚ) * 10 + (3 : ℚ)) ∧
    (7 : ℚ) * 10 + (3 : ℚ) = 73 :=
  ⟨pmm_this_hour_energy_decode c5Snapshot 7 3 (by decide) (by decide), by norm_num⟩

/-- C7: every decode rule in both profile tables is a pure function of the
snapshot in this embedding (the source lambdas only read `r`); evaluating
the same rule twice on the same unmodified snapshot yields identical
results. -/
theorem decode_rules_pure (r : List ℕ) :
    (∀ p ∈ AQM_GENERIC_SENSOR_DEFINE,
      (p.2).value_handler r = (p.2).value_handler r) ∧
    (∀ p ∈ PMM_GENERIC_SENSOR_DEFINE,
      (p.2).value_handler r = (p.2).value_handler r) :=
  ⟨fun _ _ => rfl, fun _ _ => rfl⟩

/-- C7 witness: double evaluation of the AQM humidity rule on a concrete
snapshot coincides. -/
theorem decode_rules_pure_witness :
    aqm_define_humidity.value_handler [100, 200, 300] =
      aqm_define_humidity.value_handler [100, 200, 300] :=
  (decode_rules_pure [100, 200, 300]).1 ("humidity", aqm_define_humidity)
    (List.mem_cons_self _ _)

/-- C9: the AQM profile has exactly seven rules referencing only indices
0..6, so on any snapshot of length at least 7 every AQM rule evaluates
without out-of-range access; the PMM profile has exactly fourteen rules
referencing only indices up to 41, so on any snapshot of length at least 42
every PMM rule evaluates without out-of-range access. -/
theorem profiles_index_safe (r : List ℕ) :
    (AQM_GENERIC_SENSOR_DEFINE.length = 7 ∧ PMM_GENERIC_SENSOR_DEFINE.length = 14) ∧
    (7 ≤ r.length →
      ∀ p ∈ AQM_GENERIC_SENSOR_DEFINE, ((p.2).value_handler r).isSome = true) ∧
    (42 ≤ r.length →
      ∀ p ∈ PMM_GENERIC_SENSOR_DEFINE, ((p.2).value_handler r).isSome = true) := by
  have hex : ∀ n, n < r.length → ∃ v, r.get? n = some v := by
    intro n h
    rw [List.get?_eq_getElem?, List.getElem?_eq_getElem h]
    exact ⟨_, rfl⟩
  refine ⟨⟨rfl, rfl⟩, ?_, ?_⟩
  · intro hlen p hp
    obtain ⟨v0, h0⟩ := hex 0 (by omega)
    obtain ⟨v1, h1⟩ := hex 1 (by omega)
    obtain ⟨v2, h2⟩ := hex 2 (by omega)
    obtain ⟨v3, h3⟩ := hex 3 (by omega)
    obtain ⟨v4, h4⟩ := hex 4 (by omega)
    obtain ⟨v5, h5⟩ := hex 5 (by omega)
    obtain ⟨v6, h6⟩ := hex 6 (by omega)
    rw [List.get?_eq_getElem?] at h0 h1 h2 h3 h4 h5 h6
    simp only [AQM_GENERIC_SENSOR_DEFINE, List.mem_cons, List.not_mem_nil,
      or_false] at hp
    rcases hp with rfl | rfl | rfl | rfl | rfl | rfl | rfl <;>
      simp [aqm_define_humidity, aqm_define_temperature, aqm_define_illuminance,
        aqm_define_co2, aqm_define_pm25, aqm_define_pm10, aqm_define_tvoc,
        h0, h1, h2, h3, h4, h5, h6]
  · intro hlen p hp
    obtain ⟨v0, h0⟩ := hex 0 (by omega)
    obtain ⟨v1, h1⟩ := hex 1 (by omega)
    obtain ⟨v2, h2⟩ := hex 2 (by omega)
    obtain ⟨v3, h3⟩ := hex 3 (by omega)
    obtain ⟨v4, h4⟩ := hex 4 (by omega)
    obtain ⟨v6, h6⟩ := hex 6 (by omega)
    obtain ⟨v7, h7⟩ := hex 7 (by omega)
    obtain ⟨v8, h8⟩ := hex 8 (by omega)
    obtain ⟨v9, h9⟩ := hex 9 (by omega)
    obtain ⟨v10, h10⟩ := hex 10 (by omega)
    obtain ⟨v11, h11⟩ := hex 11 (by omega)
    obtain ⟨v12, h12⟩ := hex 12 (by omega)
    obtain ⟨v13, h13⟩ := hex 13 (by omega)
    obtain ⟨v16, h16⟩ := hex 16 (by omega)
    obtain ⟨v40, h40⟩ := hex 40 (by omega)
    obtain ⟨v41, h41⟩ := hex 41 (by omega)
    rw [List.get?_eq_getElem?] at h0 h1 h2 h3 h4 h6 h7 h8 h9 h10 h11 h12 h13 h16 h40 h41
    simp only [PMM_GENERIC_SENSOR_DEFINE, List.mem_cons, List.not_mem_nil,
      or_false] at hp
    rcases hp with rfl | rfl | rfl | rfl | rfl | rfl | rfl | rfl | rfl | rfl |
      rfl | rfl | rfl | rfl <;>
      simp [pmm_define_power, pmm_define_this_month_energy, pmm_define_this_day_energy,
        pmm_define_total, pmm_define_voltage, pmm_define_current,
        pmm_define_power_factor, pmm_define_frequency, pmm_define_this_hour_energy,
        pmm_define_before_hour_energy, pmm_define_yesterday_energy,
        pmm_define_last_month_energy, pmm_define_two_months_ago_energy,
        pmm_define_this_month_forecast_energy,
        h0, h1, h2, h3, h4, h6, h7, h8, h9, h10, h11, h12, h13, h16, h40, h41]

/-- C9 witness: on a concrete 42-word snapshot the deepest-indexed rule of
each profile evaluates without out-of-range access. -/
theorem profiles_index_safe_witness :
    (aqm_define_illuminance.value_handler (List.replicate 42 0)).isSome = true ∧
    (pmm_define_total.value_handler (List.replicate 42 0)).isSome = true :=
  ⟨(profiles_index_safe (List.replicate 42 0)).2.1 (by decide)
      ("illuminance", aqm_define_illuminance)
      (by apply List.mem_cons_of_mem; apply List.mem_cons_of_mem;
          exact List.mem_cons_self _ _),
   (profiles_index_safe (List.replicate 42 0)).2.2 (by decide)
      (PMM_KEY_TOTAL, pmm_define_total)
      (by apply List.mem_cons_of_mem; apply List.mem_cons_of_mem;
          apply List.mem_cons_of_mem; exact List.mem_cons_self _ _)⟩

/-- C10: for every AQM device (any proxy state), the seven sub-entities
built by `Aqm300.get_sub_entities` have pairwise-distinct unique ids, even
though the AQM unique id is built from the spec's device class rather than
its `sub_id`, because the seven AQM device classes are pairwise distinct. -/
theorem aqm_unique_ids_nodup (proxy : SihasProxy) :
    ((Aqm300.get_sub_entities proxy).map VirtualSensor.attr_unique_id).Nodup := by
  have hmap : (Aqm300.get_sub_entities proxy).map VirtualSensor.attr_unique_id =
      ["carbon_dioxide", "pm25", "pm10", "volatile_organic_compounds",
       "humidity", "illuminance", "temperature"].map
        (fun c => proxy.device_type ++ "-" ++ proxy.mac ++ "-" ++ c) := by
    simp [Aqm300.get_sub_entities, AqmVirtualSensor.make, aqm_define_co2,
      aqm_define_pm25, aqm_define_pm10, aqm_define_tvoc, aqm_define_humidity,
      aqm_define_illuminance, aqm_define_temperature, SensorDeviceClass.className]
  rw [hmap]
  apply List.Nodup.map
  · intro a b hab
    exact string_append_cancel (proxy.device_type ++ "-" ++ proxy.mac ++ "-") hab
  · decide

/-- C6 counterexample: `async_setup_entry` dispatches only on the exact
strings `"PMM"` and `"AQM"` with no `else` branch, so for the unregistered
model identifier `"XYZ"` it silently adds no entities and signals no error —
the claimed `UnknownModel` failure does not exist in the code. -/
theorem async_setup_entry_unknown_model_cex :
    async_setup_entry { type := "XYZ", ip := "0.0.0.0", mac := "a0:b1", cfg := 0 } =
      [] := by
  rfl

/-- C6 (amended): for every config entry whose model identifier is neither
`"PMM"` nor `"AQM"`, `async_setup_entry` does nothing: it adds no entities
and raises no error. -/
theorem async_setup_entry_unknown_model_noop (entry : EntryData)
    (h1 : entry.type ≠ "PMM") (h2 : entry.type ≠ "AQM") :
    async_setup_entry entry = [] := by
  simp [async_setup_entry, h1, h2]

/-- C6 witness: even the model identifier `"AQM300"` (which the claim lists
as registered) is not dispatched: setup adds no entities. -/
theorem async_setup_entry_unknown_model_noop_witness :
    async_setup_entry { type := "AQM300", ip := "192.168.0.2", mac := "cc:dd", cfg := 3 } =
      [] :=
  async_setup_entry_unknown_model_noop _ (by decide) (by decide)

/-- C1 counterexample: after a poll that reports the window unavailable
while its registers hold valid-looking values, `update` still evaluates the
decode rule and stores its result as the native value — the value is
`some 700`, not unavailable, refuting "the decode rule is not evaluated". -/
theorem update_gating_cex :
    (staleUnavailablePoll () (soloWorld.windows ())).available = false ∧
    (staleWorld.readers ()).native_value ≠ none := by
  refine ⟨rfl, ?_⟩
  have : (staleWorld.readers ()).native_value = some (700 : ℚ) := by decide
  rw [this]
  decide

/-- C1 (amended): whenever `update` returns normally, the reader copies the
polled window's availability flag (so a false flag marks the reading
unavailable), but the decode rule IS evaluated on the polled register
contents and its result is stored as the reading's native value. -/
theorem update_copies_availability_and_decodes {ι δ : Type}
    [DecidableEq ι] [DecidableEq δ]
    (device : ι → δ) (rule : ι → List ℕ → Option ℚ)
    (poll : δ → WindowState → WindowState) (s : SystemState ι δ) (i : ι)
    (t : SystemState ι δ)
    (hok : updateReader device rule poll s i = .ok t) :
    (t.readers i).available = (poll (device i) (s.windows (device i))).available ∧
    (t.readers i).native_value =
      rule i (poll (device i) (s.windows (device i))).registers := by
  simp only [updateReader] at hok
  cases hrule : rule i (poll (device i) (s.windows (device i))).registers with
  | none =>
      rw [hrule] at hok
      exact absurd hok (by simp)
  | some v =>
      rw [hrule] at hok
      simp only [Except.ok.injEq] at hok
      subst hok
      constructor
      · simp
      · simp

/-- C1 witness: in the concrete unavailable-window scenario the updated
reader is flagged unavailable yet carries the decoded value `700`. -/
theorem update_copies_availability_and_decodes_witness :
    (staleWorld.readers ()).available = false ∧
    (staleWorld.readers ()).native_value = some (700 : ℚ) := by
  have h := update_copies_availability_and_decodes soloDevice co2Rule
    staleUnavailablePoll soloWorld () staleWorld rfl
  refine ⟨?_, ?_⟩
  · rw [h.1]
    decide
  · rw [h.2]
    decide

/-- C2 counterexample: when the polled snapshot is too short for the rule's
index, `update` does not resolve to an unavailable reading — the
out-of-range error escapes the refresh (the call returns abnormally),
refuting "recovered locally, never propagated out of the refresh". -/
theorem update_out_of_range_cex :
    updateReturnedNormally
      (updateReader soloDevice co2Rule shortSnapshotPoll soloWorld ()) = false := by
  decide

/-- C2 (amended): if the reader's decode rule hits an out-of-range index on
the polled snapshot, the refresh fails and the error propagates to the
caller; at that point no reader's fields have been assigned — the failing
reader keeps its previous value and availability, and sibling readers are
unaffected. -/
theorem update_out_of_range_propagates {ι δ : Type}
    [DecidableEq ι] [DecidableEq δ]
    (device : ι → δ) (rule : ι → List ℕ → Option ℚ)
    (poll : δ → WindowState → WindowState) (s : SystemState ι δ) (i : ι)
    (hfail : rule i (poll (device i) (s.windows (device i))).registers = none) :
    updateReturnedNormally (updateReader device rule poll s i) = false ∧
    (afterUpdate (updateReader device rule poll s i)).readers = s.readers := by
  simp only [updateReader]
  rw [hfail]
  exact ⟨rfl, rfl⟩

/-- C2 witness: in the concrete short-snapshot scenario the refresh returns
abnormally and every reader's fields are unchanged. -/
theorem update_out_of_range_propagates_witness :
    updateReturnedNormally
      (updateReader soloDevice co2Rule shortSnapshotPoll soloWorld ()) = false ∧
    (afterUpdate (updateReader soloDevice co2Rule shortSnapshotPoll soloWorld ())).readers =
      soloWorld.readers :=
  update_out_of_range_propagates soloDevice co2Rule shortSnapshotPoll soloWorld () rfl

/-- C8: a refresh of reader `i` leaves every other reader's fields and every
other device's window unchanged, whether it returns normally or raises —
readers never mutate each other's state and share no cross-device mutable
state. -/
theorem update_reader_frame {ι δ : Type} [DecidableEq ι] [DecidableEq δ]
    (device : ι → δ) (rule : ι → List ℕ → Option ℚ)
    (poll : δ → WindowState → WindowState) (s : SystemState ι δ) (i : ι)
    (j : ι) (hj : j ≠ i) (d : δ) (hd : d ≠ device i) :
    (afterUpdate (updateReader device rule poll s i)).readers j = s.readers j ∧
    (afterUpdate (updateReader device rule poll s i)).windows d = s.windows d := by
  cases hrule : rule i (poll (device i) (s.windows (device i))).registers with
  | none =>
      simp only [updateReader, hrule]
      simp [afterUpdate, hd]
  | some v =>
      simp only [updateReader, hrule]
      simp [afterUpdate, hj, hd]

/-- C8 witness: refreshing reader `true` leaves reader `false` and the
window of device `false` untouched in the concrete two-reader world. -/
theorem update_reader_frame_witness :
    (afterUpdate (updateReader pairDevice pairRule pairPoll pairWorld true)).readers false =
      pairWorld.readers false ∧
    (afterUpdate (updateReader pairDevice pairRule pairPoll pairWorld true)).windows false =
      pairWorld.windows false :=
  update_reader_frame pairDevice pairRule pairPoll pairWorld true false (by decide)
    false (by decide)
